import Mathlib

/-!
Verification of the Parsons-problem tutor backend (`src/backend`).

Python strings are modelled as `List Char` (`PyStr`); each Python string
primitive used by the backend (`strip`, `lower`, `split`, the `in`
substring test, slicing, `find`/`rfind`) is embedded as a structural
recursion over character lists so that every definition evaluates by
`decide`/`rfl`.  Fallible endpoint handlers return `Except Nat α`, where
the `Nat` is the HTTP status of the raised `HTTPException`.
-/

/-- Python strings, modelled as lists of characters. -/
abbrev PyStr := List Char

/-- Convert a Lean string literal to the `PyStr` model. -/
def pys (s : String) : PyStr := s.data

/-- Characters treated as whitespace by Python's `str.strip()`. -/
def isPyWs (c : Char) : Bool :=
  c == ' ' || c == '\t' || c == '\n' || c == '\r' || c == '\x0b' || c == '\x0c'

/-- Python `s.lstrip()`. -/
def lstripChars (s : PyStr) : PyStr := s.dropWhile isPyWs

/-- Python `s.strip()`. -/
def stripChars (s : PyStr) : PyStr :=
  ((s.dropWhile isPyWs).reverse.dropWhile isPyWs).reverse

/-- Python `s.lower()`. -/
def lowerChars (s : PyStr) : PyStr := s.map Char.toLower

/-- Python `initial_code.split('\n')`: `"".split('\n') == [""]`. -/
def splitOnNl : PyStr → List PyStr
  | [] => [[]]
  | c :: rest =>
    if c == '\n' then [] :: splitOnNl rest
    else
      match splitOnNl rest with
      | [] => [[c]]
      | h :: t => (c :: h) :: t

/-- Python's substring test `pat in text` (empty pattern matches everywhere). -/
def containsSub : PyStr → PyStr → Bool
  | [], pat => pat.isEmpty
  | c :: rest, pat => pat.isPrefixOf (c :: rest) || containsSub rest pat

/-- Python `' '.join(lines)`. -/
def joinSpace : List PyStr → PyStr
  | [] => []
  | [x] => x
  | x :: rest => x ++ ' ' :: joinSpace rest

/-- Leading-whitespace count `len(line) - len(line.lstrip())`. -/
def leadingWs (s : PyStr) : Nat := s.length - (lstripChars s).length

/-- The `'#distractor'` marker excluded from canonical solutions. -/
def distractorMark : PyStr := pys "#distractor"

/-! ## Data model (`models.py`) -/

/-- Embedding of `ParsonsSettings` (`models.py`): the raw initial-code blob; the `options`
field is not read by any embedded function and is omitted. -/
structure ParsonsSettings where
  initial : PyStr
deriving DecidableEq

/-- Embedding of `Problem` (`models.py`), restricted to the fields the routers read. -/
structure Problem where
  id : PyStr
  parsonsSettings : ParsonsSettings
deriving DecidableEq

/-- Embedding of `SolutionSubmission` (`models.py`).  The optional `solutionContext` dict is
modelled only by its presence, which is all the router call site uses. -/
structure SolutionSubmission where
  problemId : PyStr
  solution : List PyStr
  solutionContextPresent : Bool
deriving DecidableEq

/-- Embedding of `SolutionValidation` (`models.py`). -/
structure SolutionValidation where
  isCorrect : Bool
  details : PyStr
deriving DecidableEq

/-! ## `services/solution_validator.py` -/

/-- The canonical lines extracted by `validate_solution`: split the initial
blob on newlines, drop blank lines and `#distractor` lines, and `strip()`
each surviving line (this validator strips, discarding indentation). -/
def extractCorrectLinesStripped (initial : PyStr) : List PyStr :=
  ((splitOnNl initial).filter
    (fun line => !(stripChars line).isEmpty && !containsSub line distractorMark)).map stripChars

/-- Embedding of `[line.strip() for line in user_solution if line.strip()]`. -/
def cleanUserSolutionStripped (userSolution : List PyStr) : List PyStr :=
  (userSolution.filter (fun line => !(stripChars line).isEmpty)).map stripChars

/-- Embedding of `validate_solution(problem_settings, user_solution)`
(`services/solution_validator.py`): correct iff the cleaned submission has the
same length as the canonical stripped lines and each pair agrees after a
further `strip()`.  The function has exactly these two parameters. -/
def validate_solution (ps : ParsonsSettings) (userSolution : List PyStr) : SolutionValidation :=
  let correct_lines := extractCorrectLinesStripped ps.initial
  let cleaned := cleanUserSolutionStripped userSolution
  let is_correct := cleaned.length == correct_lines.length &&
    (cleaned.zip correct_lines).all (fun p => stripChars p.1 == stripChars p.2)
  { isCorrect := is_correct
    details := if is_correct then pys "Solution is correct!"
               else pys "Solution does not match the expected output." }

/-- Number of parameters of `validate_solution` in
`services/solution_validator.py`: `def validate_solution(problem_settings,
user_solution)` — two, with no defaults and no `*args`. -/
def validate_solution_paramCount : Nat := 2

/-- Number of positional arguments at the call site in
`routers/solutions.py`: `validate_solution(problem["parsonsSettings"],
submission.solution, submission.solutionContext)` — three. -/
def check_solution_argCount : Nat := 3

/-! ## `routers/solutions.py` -/

/-- Embedding of `check_solution` (`POST /solutions/validate`): 404 when the problem id is
unknown; an empty submitted solution short-circuits to a "No solution
provided" failure before the validator is called; otherwise the router calls
`validate_solution` with three positional arguments.  Python raises
`TypeError` when a call passes more positional arguments than the callee
declares, and the router's `except Exception` turns that into an
`HTTPException(500)`. -/
def check_solution (problems : List Problem) (submission : SolutionSubmission) :
    Except Nat SolutionValidation :=
  match problems.find? (fun p => p.id == submission.problemId) with
  | none => .error 404
  | some problem =>
    if submission.solution.isEmpty then
      .ok { isCorrect := false, details := pys "No solution provided" }
    else if check_solution_argCount ≤ validate_solution_paramCount then
      .ok (validate_solution problem.parsonsSettings submission.solution)
    else
      .error 500

/-- The problem of end-to-end scenarios 1–3 of the spec. -/
def demoProblem : Problem :=
  { id := pys "p1", parsonsSettings := ⟨pys "def f(x):\n    return x"⟩ }

/-- C1: For every stored problem and every non-empty submission whose lines
equal the canonical lines in order, trimmed content, and indentation,
`POST /solutions/validate` was claimed to return a success response with
`isCorrect=true`.  In the code it does not: the router passes three
positional arguments to the two-parameter `validate_solution`, so the call
raises `TypeError` and the endpoint answers 500 even for the canonical
submission of scenario 1 — although the validator itself, called with its
own two parameters, does report the submission correct. -/
theorem c1_validate_endpoint_errors_on_canonical_submission :
    check_solution [demoProblem]
        { problemId := pys "p1",
          solution := [pys "def f(x):", pys "    return x"],
          solutionContextPresent := false } = .error 500 ∧
    (validate_solution demoProblem.parsonsSettings
        [pys "def f(x):", pys "    return x"]).isCorrect = true := by
  constructor
  · rfl
  · decide

/-- C2: the comparator was claimed to return `isCorrect=false`, with an
indentation error at position 1 (expected level 1, actual level 0), for the
submission `["def f(x):", "return x"]` against the canonical
`["def f(x):", "    return x"]`.  `validate_solution` strips every line
before comparing and never inspects indentation, so it answers
`isCorrect=true` on exactly that input (and its result carries no
indentation information at all). -/
theorem c2_validator_ignores_indentation :
    validate_solution ⟨pys "def f(x):\n    return x"⟩
        [pys "def f(x):", pys "return x"] =
      { isCorrect := true, details := pys "Solution is correct!" } := by
  decide

/-- C9: for every existing problem, `POST /solutions/validate` with an empty
solution list returns `isCorrect=false` with details "No solution provided".
The result does not depend on the problem's settings: the router returns
before the validator call, so the comparator is never invoked. -/
theorem c9_empty_solution_short_circuits
    (problems : List Problem) (submission : SolutionSubmission)
    (hfound : (problems.find? (fun p => p.id == submission.problemId)).isSome)
    (hempty : submission.solution = []) :
    check_solution problems submission =
      .ok { isCorrect := false, details := pys "No solution provided" } := by
  unfold check_solution
  cases hp : problems.find? (fun p => p.id == submission.problemId) with
  | none => rw [hp] at hfound; simp at hfound
  | some problem => simp [hempty]

/-- Witness for C9 at the concrete scenario-3 input. -/
theorem c9_empty_solution_short_circuits_witness :
    check_solution [demoProblem]
        { problemId := pys "p1", solution := [], solutionContextPresent := false } =
      .ok { isCorrect := false, details := pys "No solution provided" } :=
  c9_empty_solution_short_circuits _ _ (by decide) rfl

/-! ## Conversation transcript (`services/feedback_generator.py`)

A transcript entry as the chat router normalizes it: a dict with `role` and
`content` (the `id` and `timestamp` keys are not read by any of the
functions embedded below). -/

/-- One conversation turn. -/
structure Msg where
  role : PyStr
  content : PyStr
deriving DecidableEq

/-- Embedding of `determine_conversation_stage`: buckets by transcript length. -/
def determine_conversation_stage (chat_history : List Msg) : PyStr :=
  if chat_history.length ≤ 2 then pys "initial"
  else if chat_history.length ≤ 6 then pys "exploration"
  else if chat_history.length ≤ 10 then pys "guided_analysis"
  else pys "deep_engagement"

/-- Rank of a conversation stage in the fixed order
initial < exploration < guided_analysis < deep_engagement. -/
def stageRank (stage : PyStr) : Nat :=
  if stage == pys "initial" then 0
  else if stage == pys "exploration" then 1
  else if stage == pys "guided_analysis" then 2
  else 3

/-- C7: the conversation stage is determined solely by turn count — at most 2
turns gives `initial`, at most 6 `exploration`, at most 10 `guided_analysis`,
otherwise `deep_engagement` — and the stage is monotone non-decreasing as
turns are appended. -/
theorem c7_stage_buckets_and_monotone (h1 h2 : List Msg) :
    (h1.length ≤ 2 → determine_conversation_stage h1 = pys "initial") ∧
    (2 < h1.length → h1.length ≤ 6 →
      determine_conversation_stage h1 = pys "exploration") ∧
    (6 < h1.length → h1.length ≤ 10 →
      determine_conversation_stage h1 = pys "guided_analysis") ∧
    (10 < h1.length → determine_conversation_stage h1 = pys "deep_engagement") ∧
    (h1.length ≤ h2.length →
      stageRank (determine_conversation_stage h1) ≤
        stageRank (determine_conversation_stage h2)) := by
  unfold determine_conversation_stage
  refine ⟨?_, ?_, ?_, ?_, ?_⟩
  · intro h; simp [h]
  · intro h h6; rw [if_neg (by omega), if_pos h6]
  · intro h h10; rw [if_neg (by omega), if_neg (by omega), if_pos h10]
  · intro h; rw [if_neg (by omega), if_neg (by omega), if_neg (by omega)]
  · intro hle
    split_ifs <;> first | decide | omega

/-- Witness for C7: a 2-turn transcript is `initial`, an 11-turn transcript is
`deep_engagement`, and the stage rank does not decrease between them. -/
theorem c7_stage_buckets_and_monotone_witness :
    stageRank (determine_conversation_stage
        (List.replicate 2 ({ role := pys "student", content := pys "hi" } : Msg))) ≤
      stageRank (determine_conversation_stage
        (List.replicate 11 ({ role := pys "student", content := pys "hi" } : Msg))) :=
  (c7_stage_buckets_and_monotone
      (List.replicate 2 { role := pys "student", content := pys "hi" })
      (List.replicate 11 { role := pys "student", content := pys "hi" })).2.2.2.2
    (by decide)

/-! ## Teaching strategy selector (`determine_response_strategy`) -/

/-- The conversation-context dict built by
`build_conversation_context_enhanced`, restricted to the fields read by the
embedded consumers (`determine_response_strategy` and
`post_process_chat_response_enhanced`); `questions_asked`,
`student_engagement_level` and `conversation_summary` are only rendered into
the remote prompt, which is modelled as an oracle. -/
structure ConversationContext where
  conversation_stage : PyStr
  topics_discussed : List PyStr
  student_understanding : PyStr
  teaching_progression : PyStr
  last_tutor_approach : Option PyStr
deriving DecidableEq

/-- The solution-analysis dict built by `analyze_solution_state_enhanced`,
restricted to the fields read by the embedded consumers; the purely
prompt-rendered keys (`completion_ratio`, `specific_issues`,
`comparison_with_correct`, `code_structure_analysis`) are omitted.  The
`emotional_state` field models the dict lookup
`solution_analysis.get('emotional_state', 'neutral')` performed by
`post_process_chat_response_enhanced`: it is an `Option` because the
analyzer never assigns that key. -/
structure SolutionAnalysis where
  has_solution : Bool
  solution_length : Nat
  expected_length : Nat
  has_indentation_issues : Bool
  missing_concepts : List PyStr
  correct_concepts : List PyStr
  error_types : List PyStr
  emotional_state : Option PyStr
deriving DecidableEq

/-- The message-analysis dict built by `analyze_student_message`, restricted
to the fields read by `determine_response_strategy`. -/
structure MessageAnalysis where
  intent : PyStr
  emotional_state : PyStr
deriving DecidableEq

/-- A teaching strategy as returned by `determine_response_strategy`. -/
structure Strategy where
  approach : PyStr
  description : PyStr
  questioning_style : PyStr
deriving DecidableEq

/-- Embedding of `determine_response_strategy`: the ordered first-match decision tree over
emotion, intent, understanding, progression and solution state. -/
def determine_response_strategy (ctx : ConversationContext)
    (solution_analysis : SolutionAnalysis) (message_analysis : MessageAnalysis) :
    Strategy :=
  if message_analysis.emotional_state == pys "frustrated" then
    { approach := pys "supportive_simplification"
      description := pys "Provide emotional support and break down into simpler steps"
      questioning_style := pys "Use gentle, encouraging questions that build confidence" }
  else if message_analysis.intent == pys "seeking_help" &&
      ctx.student_understanding == pys "confused" then
    { approach := pys "diagnostic_scaffolding"
      description := pys "Identify specific confusion points and provide structured guidance"
      questioning_style := pys "Ask targeted questions to pinpoint misunderstanding" }
  else if ctx.teaching_progression == pys "diagnostic" &&
      solution_analysis.solution_length == 0 then
    { approach := pys "initial_exploration"
      description := pys "Help student understand the problem and identify first steps"
      questioning_style := pys "Ask broad questions about program purpose and logic" }
  else if ctx.teaching_progression == pys "analytical" &&
      !solution_analysis.error_types.isEmpty then
    { approach := pys "error_analysis"
      description := pys "Guide student to analyze their specific errors"
      questioning_style := pys "Ask questions that help them discover their own mistakes" }
  else if ctx.student_understanding == pys "understanding" &&
      ctx.teaching_progression == pys "guidance" then
    { approach := pys "solution_refinement"
      description := pys "Help student perfect their solution and deepen understanding"
      questioning_style := pys "Ask questions that encourage reflection and extension" }
  else
    { approach := pys "adaptive_response"
      description := pys "Respond flexibly based on immediate context"
      questioning_style := pys "Use contextually appropriate questions" }

/-- The claim's rule list, written exactly as the spec orders it: each rule is
a guard over (emotion, intent, understanding, progression, solution state)
paired with the approach it selects. -/
def claimedStrategyRules (ctx : ConversationContext)
    (solution_analysis : SolutionAnalysis) (message_analysis : MessageAnalysis) :
    List (Bool × PyStr) :=
  [ (message_analysis.emotional_state == pys "frustrated",
      pys "supportive_simplification"),
    (message_analysis.intent == pys "seeking_help" &&
        ctx.student_understanding == pys "confused",
      pys "diagnostic_scaffolding"),
    (ctx.teaching_progression == pys "diagnostic" &&
        solution_analysis.solution_length == 0,
      pys "initial_exploration"),
    (ctx.teaching_progression == pys "analytical" &&
        !solution_analysis.error_types.isEmpty,
      pys "error_analysis"),
    (ctx.student_understanding == pys "understanding" &&
        ctx.teaching_progression == pys "guidance",
      pys "solution_refinement") ]

/-- First-match evaluation of an ordered rule list with a catch-all default. -/
def firstMatchApproach : List (Bool × PyStr) → PyStr → PyStr
  | [], default => default
  | (cond, v) :: rest, default =>
    if cond then v else firstMatchApproach rest default

/-- C6: the teaching strategy selector is exactly the claimed ordered
first-match rule list with `adaptive_response` as catch-all, and every input
yields one of the six fixed approaches (no input is unmatched). -/
theorem c6_strategy_is_first_match (ctx : ConversationContext)
    (solution_analysis : SolutionAnalysis) (message_analysis : MessageAnalysis) :
    (determine_response_strategy ctx solution_analysis message_analysis).approach =
      firstMatchApproach
        (claimedStrategyRules ctx solution_analysis message_analysis)
        (pys "adaptive_response") ∧
    (determine_response_strategy ctx solution_analysis message_analysis).approach ∈
      [pys "supportive_simplification", pys "diagnostic_scaffolding",
       pys "initial_exploration", pys "error_analysis",
       pys "solution_refinement", pys "adaptive_response"] := by
  unfold determine_response_strategy claimedStrategyRules
  constructor
  · split_ifs <;> simp_all [firstMatchApproach] <;> split_ifs <;> simp_all <;> tauto
  · split_ifs <;> simp

/-! ## Concept classifier (`SharedValidationService.analyze_programming_concepts`) -/

/-- The fixed concept taxonomy with its detection keywords, in the insertion
order of the Python dict literal. -/
def conceptKeywordTable : List (PyStr × List PyStr) :=
  [ (pys "functions", [pys "def ", pys "return"]),
    (pys "loops", [pys "for ", pys "while "]),
    (pys "conditionals", [pys "if ", pys "else", pys "elif"]),
    (pys "variables", [pys "="]),
    (pys "output", [pys "print("]),
    (pys "input", [pys "input("]),
    (pys "lists", [pys "[", pys "]", pys ".append", pys ".extend"]),
    (pys "strings", [pys "'", pys "\"", pys ".format", pys "f'"]) ]

/-- Embedding of `any(keyword in text for keyword in keywords)`. -/
def hasAnyKeyword (text : PyStr) (keywords : List PyStr) : Bool :=
  keywords.any (fun kw => containsSub text kw)

/-- Result of the concept classifier. -/
structure ConceptAnalysis where
  missing_concepts : List PyStr
  correct_concepts : List PyStr
deriving DecidableEq

/-- Embedding of `analyze_programming_concepts(user_solution, correct_lines)`
(`services/shared_validation.py`): lowercase the space-joined texts; a
concept whose keywords appear in the canonical text lands in
`correct_concepts` when a keyword also appears in the submitted text and in
`missing_concepts` otherwise. -/
def analyze_programming_concepts (user_solution correct_lines : List PyStr) :
    ConceptAnalysis :=
  let solution_text := lowerChars (joinSpace user_solution)
  let correct_text := lowerChars (joinSpace correct_lines)
  { missing_concepts :=
      (conceptKeywordTable.filter (fun e =>
        hasAnyKeyword correct_text e.2 && !hasAnyKeyword solution_text e.2)).map Prod.fst
    correct_concepts :=
      (conceptKeywordTable.filter (fun e =>
        hasAnyKeyword correct_text e.2 && hasAnyKeyword solution_text e.2)).map Prod.fst }

/-- C8: a concept is reported as missing iff it is in the taxonomy, at least
one of its keywords occurs (case-insensitively) in the canonical text, and
none of its keywords occurs in the submitted text.  In particular a concept
whose keywords are all absent from the canonical text is never reported
missing. -/
theorem c8_missing_concepts_characterization
    (user_solution correct_lines : List PyStr) (c : PyStr) :
    c ∈ (analyze_programming_concepts user_solution correct_lines).missing_concepts ↔
      ∃ kws, (c, kws) ∈ conceptKeywordTable ∧
        (∃ kw ∈ kws, containsSub (lowerChars (joinSpace correct_lines)) kw = true) ∧
        (∀ kw ∈ kws, containsSub (lowerChars (joinSpace user_solution)) kw = false) := by
  simp only [analyze_programming_concepts, List.mem_map, List.mem_filter,
    hasAnyKeyword, Bool.and_eq_true, Bool.not_eq_true', List.any_eq_true,
    List.any_eq_false]
  constructor
  · rintro ⟨⟨name, kws⟩, ⟨hmem, hcorrect, huser⟩, hname⟩
    exact ⟨kws, hname ▸ hmem, hcorrect, fun kw hk => by simpa using huser kw hk⟩
  · rintro ⟨kws, hmem, hcorrect, huser⟩
    exact ⟨(c, kws), ⟨hmem, hcorrect, fun kw hk => by simpa using huser kw hk⟩, rfl⟩

/-! ## Solution-state analyzer (`analyze_solution_state_enhanced`) -/

/-- Canonical lines with indentation preserved: split on newlines, drop blank
and `#distractor` lines (used throughout `feedback_generator.py`). -/
def extractCorrectLinesRaw (initial : PyStr) : List PyStr :=
  (splitOnNl initial).filter
    (fun line => !(stripChars line).isEmpty && !containsSub line distractorMark)

/-- Embedding of `[line for line in user_solution if line.strip()]`. -/
def cleanUserSolutionRaw (userSolution : List PyStr) : List PyStr :=
  userSolution.filter (fun line => !(stripChars line).isEmpty)

/-- Python dict assignment `m[k] = v` on a string-keyed dict modelled as an
association list: later assignments overwrite earlier ones. -/
def dictInsertNat (m : List (PyStr × Nat)) (k : PyStr) (v : Nat) : List (PyStr × Nat) :=
  if m.any (fun p => p.1 == k) then
    m.map (fun p => if p.1 == k then (k, v) else p)
  else m ++ [(k, v)]

/-- Python dict lookup `m.get(k)`. -/
def dictGetNat (m : List (PyStr × Nat)) (k : PyStr) : Option Nat :=
  (m.find? (fun p => p.1 == k)).map Prod.snd

/-- The `correct_indent_map` of `analyze_solution_state_enhanced`: stripped
content of each canonical line mapped to `leading-whitespace // 4`. -/
def buildIndentMap (correct_lines : List PyStr) : List (PyStr × Nat) :=
  correct_lines.foldl
    (fun m line =>
      let content := stripChars line
      if content.isEmpty then m else dictInsertNat m content (leadingWs line / 4)) []

/-- The indentation scan of `analyze_solution_state_enhanced` (lines 238–264):
some non-blank submitted line whose stripped content has a canonical
indentation level differs from it. -/
def hasIndentationIssues (correct_lines user_solution : List PyStr) : Bool :=
  let m := buildIndentMap correct_lines
  user_solution.any (fun user_line =>
    let content := stripChars user_line
    !content.isEmpty &&
      match dictGetNat m content with
      | some expected => leadingWs user_line / 4 != expected
      | none => false)

/-- The frontend-supplied `solutionContext` dict, as far as
`analyze_solution_state_enhanced` reads it. -/
structure SolutionContextModel where
  solutionStatus : Option PyStr
  isCorrectFlag : Option Bool
deriving DecidableEq

/-- Embedding of `analyze_solution_state_enhanced(problem_settings, user_solution,
solution_context)`.  The `solution_context` branch (lines 192–220) only sets
local variables that the function then discards: the returned dict's
`has_indentation_issues` is reset to `False` at line 239 and recomputed from
the backend comparison, and the local `is_correct` is never stored — so the
result is independent of the context argument.  `error_types` is built in
source order: length mismatch, then indentation, then missing concepts.
The dict never receives an `emotional_state` key. -/
def analyze_solution_state_enhanced (ps : ParsonsSettings) (user_solution : List PyStr)
    (_solution_context : Option SolutionContextModel) : SolutionAnalysis :=
  let correct_lines := extractCorrectLinesRaw ps.initial
  let cleaned := cleanUserSolutionRaw user_solution
  let solution_text := lowerChars (joinSpace cleaned)
  let correct_text := lowerChars (joinSpace correct_lines)
  let correct_concepts := (conceptKeywordTable.filter (fun e =>
      hasAnyKeyword solution_text e.2 && hasAnyKeyword correct_text e.2)).map Prod.fst
  let missing_concepts := (conceptKeywordTable.filter (fun e =>
      hasAnyKeyword correct_text e.2 && !hasAnyKeyword solution_text e.2)).map Prod.fst
  let has_indent := hasIndentationIssues correct_lines user_solution
  let error_types :=
    (if cleaned.length < correct_lines.length then [pys "incomplete_solution"]
     else if cleaned.length > correct_lines.length then [pys "extra_blocks"]
     else []) ++
    (if has_indent then [pys "indentation_error"] else []) ++
    (if !missing_concepts.isEmpty then [pys "missing_concepts"] else [])
  { has_solution := !cleaned.isEmpty
    solution_length := cleaned.length
    expected_length := correct_lines.length
    has_indentation_issues := has_indent
    missing_concepts := missing_concepts
    correct_concepts := correct_concepts
    error_types := error_types
    emotional_state := none }

/-! ## Message emotion detection (`assess_emotional_state`) -/

/-- The `emotional_indicators` dict of `assess_emotional_state`, in insertion
order (first matching bucket wins). -/
def emotionalIndicatorTable : List (PyStr × List PyStr) :=
  [ (pys "frustrated",
      [pys "frustrated", pys "annoying", pys "difficult", pys "hard", pys "can't do"]),
    (pys "confused",
      [pys "confused", pys "lost", pys "don't understand", pys "don't get"]),
    (pys "curious",
      [pys "interesting", pys "why", pys "how", pys "what if", pys "curious"]),
    (pys "confident",
      [pys "i think i know", pys "i believe", pys "i'm sure", pys "definitely"]),
    (pys "neutral",
      [pys "okay", pys "fine", pys "sure", pys "yes", pys "no"]) ]

/-- Embedding of `assess_emotional_state(message_lower)`: the first emotional bucket with a
keyword hit, defaulting to neutral. -/
def assess_emotional_state (message_lower : PyStr) : PyStr :=
  match emotionalIndicatorTable.find? (fun e => hasAnyKeyword message_lower e.2) with
  | some e => e.1
  | none => pys "neutral"

/-! ## Conversation context builders -/

/-- Python `l[-n:]`. -/
def lastN (n : Nat) (l : List Msg) : List Msg := l.drop (l.length - n)

/-- Embedding of `set.add` modelled as append-if-absent, keeping insertion order.  Only the
underlying set and its size are consumed by the embedded functions, so the
(unspecified) Python set iteration order does not matter to any theorem. -/
def insertUnique (l : List PyStr) (x : PyStr) : List PyStr :=
  if l.contains x then l else l ++ [x]

/-- The `topic_keywords` dict of `extract_topics_discussed`. -/
def topicKeywordTable : List (PyStr × List PyStr) :=
  [ (pys "indentation",
      [pys "indent", pys "indentation", pys "spacing", pys "tab", pys "space"]),
    (pys "functions",
      [pys "function", pys "def", pys "return", pys "parameter", pys "argument"]),
    (pys "loops", [pys "loop", pys "for", pys "while", pys "iteration", pys "repeat"]),
    (pys "conditionals",
      [pys "if", pys "else", pys "condition", pys "conditional", pys "elif"]),
    (pys "variables", [pys "variable", pys "assignment", pys "value", pys "assign"]),
    (pys "order",
      [pys "order", pys "sequence", pys "first", pys "second", pys "before", pys "after"]),
    (pys "logic",
      [pys "logic", pys "logical", pys "flow", pys "program flow", pys "algorithm"]),
    (pys "syntax", [pys "syntax", pys "grammar", pys "format", pys "structure"]),
    (pys "debugging",
      [pys "error", pys "bug", pys "wrong", pys "mistake", pys "problem", pys "issue"]) ]

/-- Embedding of `extract_topics_discussed(chat_history)`. -/
def extract_topics_discussed (chat_history : List Msg) : List PyStr :=
  chat_history.foldl
    (fun topics msg =>
      topicKeywordTable.foldl
        (fun ts e =>
          if hasAnyKeyword (lowerChars msg.content) e.2 then insertUnique ts e.1 else ts)
        topics)
    []

/-- The `understanding_indicators` dict of `assess_student_understanding`. -/
def understandingIndicatorTable : List (PyStr × List PyStr) :=
  [ (pys "confused",
      [pys "confused", pys "don't understand", pys "don't get", pys "lost", pys "stuck"]),
    (pys "partial",
      [pys "i think", pys "maybe", pys "not sure", pys "kind of", pys "sort of"]),
    (pys "understanding",
      [pys "i see", pys "that makes sense", pys "i understand", pys "got it", pys "okay"]),
    (pys "confident",
      [pys "yes", pys "definitely", pys "i know", pys "correct", pys "right"]) ]

/-- Python `max(scores, key=scores.get)`: the first key attaining the maximal
score, in insertion order. -/
def argmaxFirst : List (PyStr × Nat) → PyStr × Nat → PyStr × Nat
  | [], best => best
  | p :: rest, best => argmaxFirst rest (if p.2 > best.2 then p else best)

/-- Embedding of `assess_student_understanding(chat_history)`: score each level by the
number of the last three student messages containing one of its indicators;
return the best-scoring level, or "unknown" when nothing matched. -/
def assess_student_understanding (chat_history : List Msg) : PyStr :=
  let student_messages := chat_history.filter (fun m => m.role == pys "student")
  if student_messages.isEmpty then pys "unknown"
  else
    let recent := lastN 3 student_messages
    let scores := understandingIndicatorTable.map (fun e =>
      (e.1, (recent.filter (fun m => hasAnyKeyword (lowerChars m.content) e.2)).length))
    if scores.all (fun p => p.2 == 0) then pys "unknown"
    else
      match scores with
      | [] => pys "unknown"
      | p :: rest => (argmaxFirst rest p).1

/-- Embedding of `determine_teaching_progression(chat_history)`. -/
def determine_teaching_progression (chat_history : List Msg) : PyStr :=
  let topics := extract_topics_discussed chat_history
  let understanding := assess_student_understanding chat_history
  let stage := determine_conversation_stage chat_history
  if stage == pys "initial" then pys "diagnostic"
  else if understanding == pys "confused" && topics.length < 2 then pys "diagnostic"
  else if (understanding == pys "partial" || understanding == pys "understanding") &&
      topics.length ≥ 1 then pys "analytical"
  else if understanding == pys "understanding" && topics.length ≥ 2 then pys "guidance"
  else pys "diagnostic"

/-- Embedding of `analyze_last_tutor_approach(chat_history)`: classify the most recent
tutor turn; `None` when there is no tutor turn. -/
def analyze_last_tutor_approach (chat_history : List Msg) : Option PyStr :=
  let tutor_messages := chat_history.filter (fun m => m.role == pys "tutor")
  match tutor_messages.getLast? with
  | none => none
  | some m =>
    let last_message := lowerChars m.content
    some
      (if last_message.contains '?' then
        if hasAnyKeyword last_message [pys "what", pys "which", pys "where"] then
          pys "factual_question"
        else if hasAnyKeyword last_message [pys "how", pys "why"] then
          pys "analytical_question"
        else if containsSub last_message (pys "think") then pys "reflective_question"
        else pys "general_question"
      else if hasAnyKeyword last_message
          [pys "let me explain", pys "here's how", pys "the reason"] then
        pys "explanation"
      else if hasAnyKeyword last_message [pys "try", pys "can you", pys "let's"] then
        pys "guidance"
      else pys "supportive")

/-- Embedding of `build_conversation_context_enhanced(chat_history)`, restricted to the
fields consumed outside the prompt (the prompt feeds only the remote oracle). -/
def build_conversation_context_enhanced (chat_history : List Msg) : ConversationContext :=
  if chat_history.isEmpty then
    { conversation_stage := pys "initial"
      topics_discussed := []
      student_understanding := pys "unknown"
      teaching_progression := pys "diagnostic"
      last_tutor_approach := none }
  else
    { conversation_stage := determine_conversation_stage chat_history
      topics_discussed := extract_topics_discussed chat_history
      student_understanding := assess_student_understanding chat_history
      teaching_progression := determine_teaching_progression chat_history
      last_tutor_approach := analyze_last_tutor_approach chat_history }

/-! ## Response post-processing (`post_process_chat_response_enhanced`) -/

/-- Python `s.find(c)`: index of the first occurrence, `-1` if absent. -/
def pyFindChar (s : PyStr) (c : Char) : Int :=
  match s.findIdx? (fun x => x == c) with
  | some i => (i : Int)
  | none => -1

/-- Python `s.rfind(c, 0, stop)`: index of the last occurrence within
`s[0:stop]`, `-1` if absent. -/
def pyRfindCharBefore (s : PyStr) (c : Char) (stop : Nat) : Int :=
  match (s.take stop).reverse.findIdx? (fun x => x == c) with
  | some j => (((s.take stop).length - 1 - j : Nat) : Int)
  | none => -1

/-- Python slice `s[a:b]` for non-negative bounds. -/
def pySlice (s : PyStr) (a b : Nat) : PyStr := (s.take b).drop a

/-- Embedding of `re.split(r'[.!?]', response)`. -/
def splitSentences : PyStr → List PyStr
  | [] => [[]]
  | c :: rest =>
    if c == '.' || c == '!' || c == '?' then [] :: splitSentences rest
    else
      match splitSentences rest with
      | [] => [[c]]
      | h :: t => (c :: h) :: t

/-- Embedding of `'. '.join(sentences)`. -/
def joinDotSpace : List PyStr → PyStr
  | [] => []
  | [x] => x
  | x :: rest => x ++ pys ". " ++ joinDotSpace rest

/-- The final stage of `post_process_chat_response_enhanced` (the
"too short or generic" patch): append a clarifying follow-up question to a
reply under 30 characters or equal to one of the generic phrases, choosing
the question by `solution_analysis.get('has_solution', False)`. -/
def patchDegenerateReply (response : PyStr) (has_solution : Bool) : PyStr :=
  if response.length < 30 ||
      [pys "yes.", pys "no.", pys "ok.", pys "sure.",
       pys "that's right."].contains (lowerChars response) then
    if has_solution then
      response ++
        pys " Looking at your current solution, what do you think about the logical flow of the steps?"
    else
      response ++ pys " What's your first thought about how to approach this problem?"
  else response

/-- Embedding of `post_process_chat_response_enhanced(ai_response, student_message,
conversation_context, solution_analysis)`: strip; truncate to four sentence
fragments when over 600 characters; ensure terminal punctuation; rework a
repeated factual question; prepend an emotional preface keyed on
`solution_analysis.get('emotional_state', 'neutral')`; and extend too-short
or generic replies with a follow-up question.  The `student_message`
parameter is not read by the Python body. -/
def post_process_chat_response_enhanced (ai_response : PyStr) (_student_message : PyStr)
    (conversation_context : ConversationContext)
    (solution_analysis : SolutionAnalysis) : PyStr :=
  let response0 := stripChars ai_response
  let response1 :=
    if response0.length > 600 then
      stripChars (joinDotSpace ((splitSentences response0).take 4)) ++ pys "."
    else response0
  let response2 :=
    match response1.getLast? with
    | none => response1
    | some c =>
      if c == '.' || c == '!' || c == '?' then response1 else response1 ++ pys "."
  let response3 :=
    if conversation_context.last_tutor_approach == some (pys "factual_question") &&
        response2.contains '?' then
      if hasAnyKeyword (lowerChars response2) [pys "what", pys "which"] &&
          conversation_context.topics_discussed.length > 2 then
        let question_start := pyFindChar response2 '?'
        if question_start > 0 then
          let q := question_start.toNat
          let r := pyRfindCharBefore response2 '.' q
          let question := stripChars (pySlice response2 (r + 1).toNat (q + 1))
          let explanation := stripChars (pySlice response2 0 (r + 1).toNat)
          if !explanation.isEmpty then
            explanation ++ pys " Let me help you think through this. " ++ question
          else response2
        else response2
      else response2
    else response2
  let emotional_state := solution_analysis.emotional_state.getD (pys "neutral")
  let response4 :=
    if emotional_state == pys "frustrated" &&
        !hasAnyKeyword (lowerChars response3)
          [pys "understand", pys "okay", pys "let's", pys "together"] then
      pys "I understand this can be challenging. " ++ response3
    else if emotional_state == pys "confident" &&
        !hasAnyKeyword (lowerChars response3)
          [pys "great", pys "good", pys "excellent", pys "right"] then
      pys "You're on the right track! " ++ response3
    else response3
  patchDegenerateReply response4 solution_analysis.has_solution

/-! ## Deterministic fallback responders -/

/-- Embedding of `' and '.join(parts)`. -/
def joinAnd : List PyStr → PyStr
  | [] => []
  | [x] => x
  | x :: rest => x ++ pys " and " ++ joinAnd rest

/-- The recent-topic scan at the top of `generate_chat_fallback_enhanced`:
indentation / order / functions mentions in the last four transcript turns. -/
def recentFallbackTopics (chat_history : List Msg) : List PyStr :=
  (lastN 4 chat_history).foldl
    (fun ts msg =>
      let content := lowerChars msg.content
      let ts := if containsSub content (pys "indent") then
          insertUnique ts (pys "indentation") else ts
      let ts := if hasAnyKeyword content [pys "order", pys "sequence", pys "first"] then
          insertUnique ts (pys "order") else ts
      if hasAnyKeyword content [pys "function", pys "def"] then
        insertUnique ts (pys "functions") else ts)
    []

/-- Embedding of `generate_chat_fallback_enhanced(current_message, user_solution,
problem_settings, chat_history)`: the keyword-matched canned chat responses
used when the remote call is unavailable or fails.  `problem_settings` is
not read by the Python body.  In the multi-topic help branch the Python
interpolates `list(topics)[:2]` whose set order is unspecified; the model
uses insertion order — no theorem depends on that branch's exact text. -/
def generate_chat_fallback_enhanced (current_message : PyStr) (user_solution : List PyStr)
    (_ps : ParsonsSettings) (chat_history : List Msg) : PyStr :=
  let message_lower := lowerChars current_message
  let topics_discussed := recentFallbackTopics chat_history
  if containsSub message_lower (pys "indent") then
    if topics_discussed.contains (pys "indentation") then
      pys "We've talked about indentation before. Remember, Python uses indentation to show which lines belong together - like how you indent paragraphs in an essay. Looking at your current blocks, which ones do you think should be grouped together?"
    else
      pys "Indentation in Python is like organizing your thoughts in an outline. Lines that belong to the same 'group' (like inside a function or if statement) should be indented the same amount. What do you notice about the structure of your code blocks?"
  else if hasAnyKeyword message_lower [pys "order", pys "sequence", pys "first", pys "next"] then
    if topics_discussed.contains (pys "order") then
      pys "You're continuing to think about the logical order - that's exactly right! Think about this like giving directions to a friend. What would need to happen before the step you're looking at can work?"
    else
      pys "Great question about order! Programming is like writing a recipe - some steps must happen before others. What do you think this program is trying to accomplish overall?"
  else if hasAnyKeyword message_lower [pys "function", pys "def", pys "return"] then
    pys "Functions are like little machines that take inputs and produce outputs. In your blocks, the 'def' line is like setting up the machine, and 'return' is like the machine giving you back the result. Where do you think each part should go?"
  else if hasAnyKeyword message_lower [pys "loop", pys "for", pys "while"] then
    pys "Loops repeat code multiple times. The code inside the loop should be indented. What's confusing you about the loop in this problem?"
  else if hasAnyKeyword message_lower [pys "help", pys "stuck", pys "confused"] then
    if user_solution.isEmpty then
      pys "No worries - everyone starts somewhere! Look at all your code blocks and think: if this were a story, what would happen first? What's the opening scene of this program?"
    else if topics_discussed.length > 1 then
      pys "You've been doing great thinking about " ++ joinAnd (topics_discussed.take 2) ++
        pys ". Sometimes it helps to step back and ask: what is this program's main job? Once you're clear on that, the order often becomes clearer."
    else
      pys "Let's break this down step by step. Looking at your current arrangement, does the order make sense if you were explaining it to a friend? What feels out of place?"
  else if hasAnyKeyword message_lower [pys "right", pys "correct", pys "good"] then
    if topics_discussed.contains (pys "functions") then
      pys "You're thinking well about the structure! Functions need their pieces in the right order too. What do you think should happen inside the function before it can return a result?"
    else
      pys "You're asking the right questions! Take a look at what you have so far. If you were reading this code out loud, would it sound like a logical sequence of steps?"
  else
    if user_solution.isEmpty then
      pys "I'm here to help you work through this step by step! What's your first instinct about which block should go first? There's no wrong answer - just tell me what you're thinking."
    else if user_solution.length < 3 then
      pys "You've made a good start! Look at what you have so far and think about what should come next. What does the program need to do after these first steps?"
    else
      pys "You're making progress! Step back and read through your current solution. Does it tell a clear 'story' of what the program should do? What part feels like it might be in the wrong place?"

/-- The first-mismatch scan of `generate_fallback_feedback`: walk the zipped
(user, correct) lines with their index; unstripped inequality selects a
hint keyed on the content of the expected line. -/
def fallbackFeedbackScan : Nat → List (PyStr × PyStr) → PyStr
  | _, [] =>
    pys "I see some issues with your solution. Can you review the logical flow of your program? What should happen first, and what operations follow?"
  | i, (user_line, correct_line) :: rest =>
    if user_line != correct_line then
      if i == 0 then
        pys "I'm looking at the very first line of your solution. Is this the right place to start? What should happen first in this program?"
      else if hasAnyKeyword correct_line [pys "if", pys "for", pys "while", pys "def"] then
        pys "Take a look at line " ++ pys (toString (i + 1)) ++
          pys " of your solution. Should this be a control structure? What would be the logical flow at this point in the program?"
      else if containsSub correct_line (pys "=") ||
          containsSub correct_line (pys "return") then
        pys "Consider line " ++ pys (toString (i + 1)) ++
          pys ". What operation needs to happen at this point in the program? What values do we need to calculate or return?"
      else
        pys "I'm noticing an issue around line " ++ pys (toString (i + 1)) ++
          pys ". What do you think should happen at this point in the program flow?"
    else fallbackFeedbackScan (i + 1) rest

/-- Embedding of `generate_fallback_feedback(correct_lines, user_solution)`. -/
def generate_fallback_feedback (correct_lines user_solution : List PyStr) : PyStr :=
  if user_solution.length != correct_lines.length then
    pys "I notice your solution has a different number of lines than expected. Have you included all the necessary code blocks? Are there any blocks that might not belong?"
  else fallbackFeedbackScan 0 (user_solution.zip correct_lines)

/-! ## Orchestrators (`generate_feedback`, `generate_chat_response`) -/

/-- Outcome of one remote text-generation call: the collaborator either
returns a completion or raises (network, malformed response, timeout). -/
inductive RemoteOutcome where
  | success (text : PyStr)
  | failure
deriving DecidableEq

/-- Embedding of `generate_feedback(problem_settings, user_solution)`: with no API key use
the deterministic fallback; otherwise attempt the remote call
(`get_openai_response` returns the completion stripped) and fall back on any
exception. -/
def generate_feedback (api_key : Option PyStr) (remote : RemoteOutcome)
    (ps : ParsonsSettings) (user_solution : List PyStr) : PyStr :=
  let correct_lines := extractCorrectLinesRaw ps.initial
  let cleaned := cleanUserSolutionRaw user_solution
  match api_key with
  | none => generate_fallback_feedback correct_lines cleaned
  | some _ =>
    match remote with
    | .success text => stripChars text
    | .failure => generate_fallback_feedback correct_lines cleaned

/-- Embedding of `generate_chat_response(problem_settings, user_solution, chat_history,
current_message)` (the chat router passes no `solution_context`, so the
analyzer runs with `None`): with no API key use the enhanced chat fallback;
otherwise analyze, build context, attempt the remote call and post-process
its reply; any exception falls back to the enhanced chat fallback.
`analyze_student_message` and `create_chat_prompt_enhanced` only shape the
prompt sent to the remote collaborator, which is modelled by the `remote`
oracle. -/
def generate_chat_response (api_key : Option PyStr) (remote : RemoteOutcome)
    (ps : ParsonsSettings) (user_solution : List PyStr) (chat_history : List Msg)
    (current_message : PyStr) : PyStr :=
  match api_key with
  | none => generate_chat_fallback_enhanced current_message user_solution ps chat_history
  | some _ =>
    let solution_analysis := analyze_solution_state_enhanced ps user_solution none
    let conversation_context := build_conversation_context_enhanced chat_history
    match remote with
    | .success text =>
      post_process_chat_response_enhanced (stripChars text) current_message
        conversation_context solution_analysis
    | .failure =>
      generate_chat_fallback_enhanced current_message user_solution ps chat_history

/-! ## Chat endpoint (`routers/feedback.py` and the request model) -/

/-- Embedding of `ChatMessage` (`models.py`). -/
structure ChatMessage where
  id : PyStr
  role : PyStr
  content : PyStr
  timestamp : Nat
  isTyping : Bool
deriving DecidableEq

/-- Embedding of `ChatFeedbackRequest` (`models.py`); the optional `solutionContext` is
modelled by its presence only (the chat router never forwards it). -/
structure ChatFeedbackRequest where
  problemId : PyStr
  userSolution : List PyStr
  chatHistory : List Msg
  currentMessage : PyStr
  solutionContextPresent : Bool
deriving DecidableEq

/-- Embedding of `ChatFeedbackResponse` (`models.py`). -/
structure ChatFeedbackResponse where
  success : Bool
  message : PyStr
  chatMessage : ChatMessage
  traditionalFeedback : Option PyStr
  solutionValidation : Option SolutionValidation
deriving DecidableEq

/-- HTTP status FastAPI answers with when a pydantic request validator
raises: request-body validation failures become `RequestValidationError`,
rendered as a 422 response before the route handler runs (the application
installs no custom handler in `main.py`). -/
def fastapi_validation_error_status : Nat := 422

/-- The pydantic layer of `POST /feedback/chat`:
`ChatFeedbackRequest.validate_current_message` raises `ValueError` when
`currentMessage` is empty after trimming — rejecting the request with the
framework's 422 — and otherwise replaces the field by its trimmed value.
The remaining validators only re-assert typing already guaranteed by the
model. -/
def parse_chat_request (raw : ChatFeedbackRequest) : Except Nat ChatFeedbackRequest :=
  if (stripChars raw.currentMessage).isEmpty then .error fastapi_validation_error_status
  else .ok { raw with currentMessage := stripChars raw.currentMessage }

/-- The canned reply substituted when `generate_chat_response` itself raises
(`routers/feedback.py`, per-call fallback). -/
def chatGenerationFallbackContent : PyStr :=
  pys "I'm here to help! Can you tell me more about what you're trying to figure out with this problem?"

/-- The apologetic reply of the chat endpoint's catch-all error path. -/
def apologyContent : PyStr :=
  pys "I apologize, but I encountered an error. Please try asking your question again, or let me know if you need help with a specific part of the problem."

/-- Embedding of `get_chat_feedback(request)` (`routers/feedback.py`), after pydantic
parsing.  Exception nondeterminism is made explicit: `chat_gen_raises`
models an exception escaping `generate_chat_response` (handled by the
per-call fallback), `traditional_raises` one escaping the traditional
feedback/validation block, and `internal_fault` any other unexpected
exception, which the catch-all turns into a `success=false` soft-failure
response carrying the exception text (`fault_detail`); explicit
`HTTPException`s (400/404) are re-raised through the catch-all.  `now` is
the millisecond clock reading and `uuid_hex` the fresh uuid fragment. -/
def get_chat_feedback (problems : List Problem) (api_key : Option PyStr)
    (remote : RemoteOutcome) (chat_gen_raises traditional_raises internal_fault : Bool)
    (fault_detail : PyStr) (req : ChatFeedbackRequest) (now : Nat) (uuid_hex : PyStr) :
    Except Nat ChatFeedbackResponse :=
  if req.problemId.isEmpty then .error 400
  else if (stripChars req.currentMessage).isEmpty then .error 400
  else
    match problems.find? (fun p => p.id == req.problemId) with
    | none => .error 404
    | some problem =>
      if internal_fault then
        .ok { success := false
              message := pys "Error generating chat response: " ++ fault_detail
              chatMessage :=
                { id := pys "error_" ++ pys (toString now)
                  role := pys "tutor"
                  content := apologyContent
                  timestamp := now
                  isTyping := false }
              traditionalFeedback := none
              solutionValidation := none }
      else
        let chat_response_content :=
          if chat_gen_raises then chatGenerationFallbackContent
          else
            generate_chat_response api_key remote problem.parsonsSettings
              req.userSolution req.chatHistory req.currentMessage
        let tf_sv : Option PyStr × Option SolutionValidation :=
          if req.userSolution.isEmpty then (none, none)
          else if traditional_raises then
            (some (pys "Unable to generate traditional feedback at this time."),
             some { isCorrect := false
                    details := pys "Unable to validate solution at this time." })
          else
            (some (generate_feedback api_key remote problem.parsonsSettings req.userSolution),
             some (validate_solution problem.parsonsSettings req.userSolution))
        .ok { success := true
              message := pys "Chat response generated successfully"
              chatMessage :=
                { id := pys "chat_" ++ pys (toString now) ++ pys "_" ++ uuid_hex
                  role := pys "tutor"
                  content := chat_response_content
                  timestamp := now
                  isTyping := false }
              traditionalFeedback := tf_sv.1
              solutionValidation := tf_sv.2 }

/-- Endpoint `POST /feedback/chat` end to end: pydantic request validation, then the
route handler. -/
def post_feedback_chat (problems : List Problem) (api_key : Option PyStr)
    (remote : RemoteOutcome) (chat_gen_raises traditional_raises internal_fault : Bool)
    (fault_detail : PyStr) (raw : ChatFeedbackRequest) (now : Nat) (uuid_hex : PyStr) :
    Except Nat ChatFeedbackResponse :=
  match parse_chat_request raw with
  | .error s => .error s
  | .ok req =>
    get_chat_feedback problems api_key remote chat_gen_raises traditional_raises
      internal_fault fault_detail req now uuid_hex

/-! ## Non-emptiness helper lemmas shared by the chat-endpoint claims -/

/-- Every branch of the enhanced chat fallback returns a non-empty reply. -/
theorem generate_chat_fallback_enhanced_ne_nil (current_message : PyStr)
    (user_solution : List PyStr) (ps : ParsonsSettings) (chat_history : List Msg) :
    generate_chat_fallback_enhanced current_message user_solution ps chat_history ≠ [] := by
  unfold generate_chat_fallback_enhanced
  dsimp only
  split_ifs <;> simp [pys]

/-- The degenerate-reply patch never returns an empty reply: either a
non-empty follow-up question is appended, or the reply kept is at least 30
characters long. -/
theorem patchDegenerateReply_ne_nil (response : PyStr) (has_solution : Bool) :
    patchDegenerateReply response has_solution ≠ [] := by
  unfold patchDegenerateReply
  split_ifs with hc hb
  · simp [pys]
  · simp [pys]
  · intro hnil
    rw [hnil] at hc
    exact hc (by decide)

/-- The post-processed remote reply is always non-empty. -/
theorem post_process_chat_response_enhanced_ne_nil (ai_response _student_message : PyStr)
    (ctx : ConversationContext) (sa : SolutionAnalysis) :
    post_process_chat_response_enhanced ai_response _student_message ctx sa ≠ [] := by
  unfold post_process_chat_response_enhanced
  dsimp only
  exact patchDegenerateReply_ne_nil _ _

/-- The function `stripChars` is `List.rdropWhile` after a front `dropWhile`. -/
theorem stripChars_eq_rdropWhile (s : PyStr) :
    stripChars s = List.rdropWhile isPyWs (s.dropWhile isPyWs) := rfl

/-- A stripped string has no leading whitespace left. -/
theorem dropWhile_stripChars (s : PyStr) :
    (stripChars s).dropWhile isPyWs = stripChars s := by
  cases ht : stripChars s with
  | nil => simp
  | cons c rest =>
    have hpre : stripChars s <+: s.dropWhile isPyWs := by
      rw [stripChars_eq_rdropWhile]; exact List.rdropWhile_prefix _ _
    rw [ht] at hpre
    rcases hpre with ⟨u, hu⟩
    have hd : s.dropWhile isPyWs = c :: (rest ++ u) := by rw [← hu]; simp
    have hne : s.dropWhile isPyWs ≠ [] := by rw [hd]; simp
    have hhead : (List.dropWhile isPyWs s).head hne = c := by simp [hd]
    have h0 := List.head_dropWhile_not isPyWs s hne
    rw [hhead] at h0
    simp [List.dropWhile_cons, h0]

/-- A stripped string has no trailing whitespace left. -/
theorem rdropWhile_stripChars (s : PyStr) :
    List.rdropWhile isPyWs (stripChars s) = stripChars s := by
  rw [stripChars_eq_rdropWhile]
  exact List.rdropWhile_idempotent _ _

/-- Python's `strip()` is idempotent. -/
theorem stripChars_idem (s : PyStr) : stripChars (stripChars s) = stripChars s := by
  rw [stripChars_eq_rdropWhile (stripChars s), dropWhile_stripChars, rdropWhile_stripChars]

/-- The function `generate_chat_response` always returns a non-empty reply. -/
theorem generate_chat_response_ne_nil (api_key : Option PyStr) (remote : RemoteOutcome)
    (ps : ParsonsSettings) (user_solution : List PyStr) (chat_history : List Msg)
    (current_message : PyStr) :
    generate_chat_response api_key remote ps user_solution chat_history
      current_message ≠ [] := by
  unfold generate_chat_response
  cases api_key with
  | none => exact generate_chat_fallback_enhanced_ne_nil _ _ _ _
  | some k =>
    cases remote with
    | success text => exact post_process_chat_response_enhanced_ne_nil _ _ _ _
    | failure => exact generate_chat_fallback_enhanced_ne_nil _ _ _ _

/-- C3: for every well-formed chat request (existing problem, non-empty
trimmed message), when every remote text-generation call raises, `POST
/feedback/chat` still returns a well-formed `ChatFeedbackResponse` — either
`success=true` carrying the deterministic fallback reply, or (on an
unexpected internal error) `success=false` with the populated apologetic
chat message — and never an error status, whatever exception pattern the
wrappers see. -/
theorem c3_chat_endpoint_survives_remote_failure
    (problems : List Problem) (api_key : Option PyStr)
    (chat_gen_raises traditional_raises internal_fault : Bool) (fault_detail : PyStr)
    (req : ChatFeedbackRequest) (now : Nat) (uuid_hex : PyStr) (problem : Problem)
    (hpid : req.problemId.isEmpty = false)
    (hmsg : (stripChars req.currentMessage).isEmpty = false)
    (hfound : problems.find? (fun p => p.id == req.problemId) = some problem) :
    ∃ resp, post_feedback_chat problems api_key .failure chat_gen_raises
        traditional_raises internal_fault fault_detail req now uuid_hex = .ok resp ∧
      resp.chatMessage.role = pys "tutor" ∧
      resp.chatMessage.content ≠ [] ∧
      (resp.success = true ∨
        (resp.success = false ∧ resp.chatMessage.content = apologyContent)) := by
  unfold post_feedback_chat parse_chat_request
  rw [if_neg (by simp [hmsg])]
  unfold get_chat_feedback
  dsimp only
  rw [if_neg (by simp [hpid]), stripChars_idem, if_neg (by simp [hmsg]), hfound]
  dsimp only
  cases internal_fault with
  | true =>
    refine ⟨_, rfl, rfl, ?_, Or.inr ⟨rfl, rfl⟩⟩
    show apologyContent ≠ []
    decide
  | false =>
    refine ⟨_, rfl, rfl, ?_, Or.inl rfl⟩
    cases chat_gen_raises with
    | true =>
      show chatGenerationFallbackContent ≠ []
      decide
    | false =>
      show generate_chat_response api_key .failure problem.parsonsSettings
        req.userSolution req.chatHistory (stripChars req.currentMessage) ≠ []
      exact generate_chat_response_ne_nil _ _ _ _ _ _

/-- Witness for C3 at a concrete well-formed request with the remote oracle
always failing. -/
theorem c3_chat_endpoint_survives_remote_failure_witness :
    ∃ resp, post_feedback_chat [demoProblem] (some (pys "k")) .failure false false false
        (pys "")
        { problemId := pys "p1", userSolution := [], chatHistory := [],
          currentMessage := pys "help", solutionContextPresent := false }
        5 (pys "ab") = .ok resp ∧
      resp.chatMessage.role = pys "tutor" ∧
      resp.chatMessage.content ≠ [] ∧
      (resp.success = true ∨
        (resp.success = false ∧ resp.chatMessage.content = apologyContent)) :=
  c3_chat_endpoint_survives_remote_failure [demoProblem] (some (pys "k"))
    false false false (pys "")
    { problemId := pys "p1", userSolution := [], chatHistory := [],
      currentMessage := pys "help", solutionContextPresent := false }
    5 (pys "ab") demoProblem (by decide) (by decide) (by decide)

/-- C4: `POST /feedback/chat` with a `currentMessage` that is empty after
trimming was claimed to answer 400.  The pydantic validator
`ChatFeedbackRequest.validate_current_message` rejects the request body
before the route handler (and its dead 400 check) runs, so FastAPI answers
422, not 400. -/
theorem c4_empty_message_rejected_with_422_not_400 :
    post_feedback_chat [demoProblem] none .failure false false false (pys "")
        { problemId := pys "p1", userSolution := [], chatHistory := [],
          currentMessage := pys "", solutionContextPresent := false }
        0 (pys "ab") = .error fastapi_validation_error_status ∧
    fastapi_validation_error_status ≠ 400 :=
  ⟨rfl, by decide⟩

/-- C5: the spec claims a frustrated student message gets an empathetic
preface prepended to the remote reply.  The code reads the emotional state
from the *solution* analysis dict — which never contains an
`emotional_state` key — instead of the message analysis, so the reply is
returned unchanged even though the message-emotion detector classifies the
message as frustrated and the reply contains no empathy words. -/
theorem c5_emotional_preface_never_applied :
    assess_emotional_state (lowerChars (pys "this is hard")) = pys "frustrated" ∧
    (analyze_solution_state_enhanced demoProblem.parsonsSettings
        [pys "def f(x):", pys "    return x"] none).emotional_state = none ∧
    post_process_chat_response_enhanced
        (pys "Try moving the return line below the def line in your arrangement.")
        (pys "this is hard")
        (build_conversation_context_enhanced [])
        (analyze_solution_state_enhanced demoProblem.parsonsSettings
          [pys "def f(x):", pys "    return x"] none) =
      pys "Try moving the return line below the def line in your arrangement." := by
  refine ⟨by decide, rfl, by decide⟩

/-- C10: every `ChatFeedbackResponse` the chat endpoint returns — success
path, per-call chat-generation fallback path, or internal-error soft-failure
path — carries a `chatMessage` whose role is "tutor" and whose content is a
non-empty string. -/
theorem c10_chat_message_always_tutor_and_nonempty
    (problems : List Problem) (api_key : Option PyStr) (remote : RemoteOutcome)
    (chat_gen_raises traditional_raises internal_fault : Bool) (fault_detail : PyStr)
    (raw : ChatFeedbackRequest) (now : Nat) (uuid_hex : PyStr)
    (resp : ChatFeedbackResponse)
    (h : post_feedback_chat problems api_key remote chat_gen_raises traditional_raises
        internal_fault fault_detail raw now uuid_hex = .ok resp) :
    resp.chatMessage.role = pys "tutor" ∧ resp.chatMessage.content ≠ [] := by
  unfold post_feedback_chat at h
  cases hparse : parse_chat_request raw with
  | error s => rw [hparse] at h; cases h
  | ok req =>
    rw [hparse] at h
    unfold get_chat_feedback at h
    dsimp only at h
    by_cases h1 : req.problemId.isEmpty = true
    · rw [if_pos h1] at h; cases h
    · rw [if_neg h1] at h
      by_cases h2 : (stripChars req.currentMessage).isEmpty = true
      · rw [if_pos h2] at h; cases h
      · rw [if_neg h2] at h
        cases hfind : problems.find? (fun p => p.id == req.problemId) with
        | none => rw [hfind] at h; cases h
        | some problem =>
          rw [hfind] at h
          dsimp only at h
          cases internal_fault with
          | true =>
            rw [if_pos rfl] at h
            injection h with h
            subst h
            refine ⟨rfl, ?_⟩
            show apologyContent ≠ []
            decide
          | false =>
            rw [if_neg (by simp)] at h
            injection h with h
            subst h
            refine ⟨rfl, ?_⟩
            cases chat_gen_raises with
            | true =>
              show chatGenerationFallbackContent ≠ []
              decide
            | false =>
              show generate_chat_response api_key remote problem.parsonsSettings
                req.userSolution req.chatHistory req.currentMessage ≠ []
              exact generate_chat_response_ne_nil _ _ _ _ _ _

/-- The response the chat endpoint computes for the concrete C10 witness
request (fallback reply for a "help" message with an empty solution). -/
def demoChatResponse : ChatFeedbackResponse :=
  { success := true
    message := pys "Chat response generated successfully"
    chatMessage :=
      { id := pys "chat_" ++ pys (toString 5) ++ pys "_" ++ pys "ab"
        role := pys "tutor"
        content := generate_chat_fallback_enhanced (pys "help") []
          demoProblem.parsonsSettings []
        timestamp := 5
        isTyping := false }
    traditionalFeedback := none
    solutionValidation := none }

/-- Witness for C10 at a concrete request whose endpoint result is computed
explicitly. -/
theorem c10_chat_message_always_tutor_and_nonempty_witness :
    demoChatResponse.chatMessage.role = pys "tutor" ∧
    demoChatResponse.chatMessage.content ≠ [] :=
  c10_chat_message_always_tutor_and_nonempty [demoProblem] none .failure
    false false false (pys "")
    { problemId := pys "p1", userSolution := [], chatHistory := [],
      currentMessage := pys "help", solutionContextPresent := false }
    5 (pys "ab") demoChatResponse (by rfl)
